import Mathlib

/-!
Verification of the LifeSmart local coordinator
(`custom_components/local_lifesmart/coordinator.py`).

The development shallowly embeds the coordinator's state and its
operations.  Python dictionaries and JSON-like values are modelled by
`PyValue`; the coordinator's instance attributes by `CoordState`;
outcomes of awaited API calls are passed in explicitly (one outcome per
attempt for the retried fetches, a list of outcomes for the push
listener's wait loop).  Machine effects that live outside the
coordinator object (logging, the low-level socket owned by the API
client) are not part of the state the claims speak about and are
omitted; sleeps are recorded as a list of durations in seconds.

A central fact of the source is that the class body defines
`_async_update_data` twice (lines 37-50 and lines 137-164).  Python
class-body semantics bind the later definition, so the method actually
dispatched on a `LifeSmartCoordinator` instance is the second one.  Both
bodies are embedded (`updateDataV1`, `updateDataV2`) and
`updateDataEffective` is the one the running program uses.
-/

/-- Python-style values as handled by the coordinator: `None`, booleans,
integers, strings, lists, and string-keyed dictionaries (modelled as
association lists in insertion order, which is dictionary iteration
order in Python). -/
inductive PyValue where
  | null
  | bool (b : Bool)
  | int (n : Int)
  | str (s : String)
  | list (elems : List PyValue)
  | dict (items : List (String × PyValue))

/-- Python truthiness (`if update:`, `if self.data`): `None`, `False`,
`0`, the empty string, the empty list and the empty dict are falsy. -/
def isTruthy : PyValue → Bool
  | .null => false
  | .bool b => b
  | .int n => n != 0
  | .str s => s != ""
  | .list elems => !elems.isEmpty
  | .dict items => !items.isEmpty

/-- Dictionary lookup, `d.get(k)` / `d[k]`: `Option.none` when the key is
absent or the value is not a dict (a non-dict receiver would raise
AttributeError in Python; the claims never exercise that path). -/
def dictGet : PyValue → String → Option PyValue
  | .dict items, k => (items.find? (fun kv => kv.1 == k)).map (fun kv => kv.2)
  | _, _ => Option.none

/-- Python membership test `k in d` for a dict receiver. -/
def dictContains (v : PyValue) (k : String) : Bool :=
  (dictGet v k).isSome

/-- Python `d.get(k, default)`. -/
def dictGetD (v : PyValue) (k : String) (default : PyValue) : PyValue :=
  (dictGet v k).getD default

/-- Python iteration over a value, as used by `list.extend(x)`: lists
yield their elements, dicts their keys, strings their characters;
`None`, booleans and integers are not iterable (extend raises
TypeError). -/
def pyIter : PyValue → Option (List PyValue)
  | .list elems => some elems
  | .dict items => some (items.map (fun kv => PyValue.str kv.1))
  | .str s => some (s.data.map (fun c => PyValue.str (String.mk [c])))
  | _ => Option.none

/-- Liveness of the asyncio task held in `self._push_task`: the poll
tick's check is `self._push_task is None or self._push_task.done()`. -/
inductive TaskStatus where
  | running
  | done
deriving DecidableEq

/-- Instance attributes of `LifeSmartCoordinator` that the claims are
about.  `devices` and `deviceInfo` are `Option` because `__init__`
(lines 19-35) never assigns them: `Option.none` models an absent
attribute (reading it raises AttributeError), `some m` an attribute
holding the dict `m`.  `data` is the snapshot the `DataUpdateCoordinator`
base class stores from a successful `_async_update_data` return
(`Option.none` before the first successful tick). -/
structure CoordState where
  available : Bool
  pushTask : Option TaskStatus
  devices : Option (List (String × PyValue))
  deviceInfo : Option (List (String × PyValue))
  data : Option PyValue

/-- State after `__init__` (lines 19-35): `_available = True`,
`_push_task = None`; the `devices` and `device_info` attributes are not
assigned at all, and no data has been stored yet. -/
def initCoordinator : CoordState :=
  { available := true
    pushTask := Option.none
    devices := Option.none
    deviceInfo := Option.none
    data := Option.none }

/-- Outcome of one awaited, timeout-guarded API fetch attempt:
the awaited value, an `asyncio.TimeoutError`, or any other exception
(carrying its message). -/
inductive AttemptOutcome where
  | ok (v : PyValue)
  | timeout
  | err (msg : String)

/-- Observable result of one retried fetch: the returned value or the
`UpdateFailed` message raised, the sleeps performed (seconds, in
order), and how many fetch attempts were made. -/
structure TickResult where
  result : Except String PyValue
  sleeps : List Nat
  attempts : Nat

/-- Lines 147-156: build `formatted_data = {"msg": []}` and, when the
fetched `devices` value is a dict, append every member value that is
itself a dict (in iteration order); a non-dict fetch result leaves the
list empty. -/
def formatDevices : PyValue → PyValue
  | .dict items =>
      .dict [("msg", .list (items.filterMap (fun kv =>
        match kv.2 with
        | .dict d => some (PyValue.dict d)
        | _ => Option.none)))]
  | _ => .dict [("msg", .list [])]

/-- Loop body of the second `_async_update_data` (lines 140-164),
`for attempt in range(3)`, unrolled over the list of attempt indices.
An `ok` fetch returns the formatted data; a non-timeout error raises
`UpdateFailed` at once; a timeout raises `UpdateFailed` on the last
attempt (`attempt == 2`) and otherwise sleeps one second and retries.
The `[]` case is Python's implicit `None` return after the loop, which
is unreachable from the call with indices `[0, 1, 2]`. -/
def pollTickLoop (fetch : Nat → AttemptOutcome) : List Nat → TickResult
  | [] => ⟨.ok .null, [], 0⟩
  | a :: rest =>
      match fetch a with
      | .ok v => ⟨.ok (formatDevices v), [], 1⟩
      | .err m => ⟨.error ("Error communicating with API: " ++ m), [], 1⟩
      | .timeout =>
          if a == 2 then
            ⟨.error "Error communicating with API: timed out", [], 1⟩
          else
            let t := pollTickLoop fetch rest
            ⟨t.result, 1 :: t.sleeps, t.attempts + 1⟩

/-- Second definition of `_async_update_data` (lines 137-164). -/
def updateDataV2 (fetch : Nat → AttemptOutcome) : TickResult :=
  pollTickLoop fetch [0, 1, 2]

/-- The `_async_update_data` actually dispatched at run time.  The class
body binds the name twice; the later binding (lines 137-164) replaces
the earlier one (lines 37-50).  That body reads only `self.api` and
assigns no attribute of `self`, so the coordinator state is returned
unchanged alongside the tick result. -/
def updateDataEffective (st : CoordState) (fetch : Nat → AttemptOutcome) :
    CoordState × TickResult :=
  (st, updateDataV2 fetch)

/-- Action of the `DataUpdateCoordinator` base class after a tick: a
successful return value is stored as `self.data`; a raised
`UpdateFailed` leaves `self.data` as it was. -/
def applyFrameworkStore (st : CoordState) (t : TickResult) : CoordState :=
  match t.result with
  | .ok v => { st with data := some v }
  | .error _ => st

/-- First, shadowed definition of `_async_update_data` (lines 37-50):
start the push-listener task when it is `None` or done, then await one
`discover_devices()` call; on success set `_available = True` and
return the data, on any exception set `_available = False` and raise
`UpdateFailed`. -/
def updateDataV1 (st : CoordState) (discover : Except String PyValue) :
    CoordState × Except String PyValue :=
  let st1 :=
    if st.pushTask = Option.none ∨ st.pushTask = some TaskStatus.done then
      { st with pushTask := some TaskStatus.running }
    else st
  match discover with
  | .ok v => ({ st1 with available := true }, .ok v)
  | .error e =>
      ({ st1 with available := false },
       .error ("Error communicating with API: " ++ e))

/-- Lines 120-127 inside `_async_get_device_data`: build
`formatted_data = {"msg": []}` and, when the fetched value is a dict
containing the key `"msg"`, extend the list with that value's elements.
`extend` of a non-iterable value raises TypeError, which the enclosing
`except Exception` turns into `UpdateFailed` naming the device. -/
def formatDeviceData (device_id : String) : PyValue → Except String PyValue
  | .dict items =>
      match dictGet (.dict items) "msg" with
      | some v =>
          match pyIter v with
          | some xs => .ok (.dict [("msg", .list xs)])
          | Option.none =>
              .error ("Error communicating with API for device " ++ device_id
                ++ ": TypeError")
      | Option.none => .ok (.dict [("msg", .list [])])
  | _ => .ok (.dict [("msg", .list [])])

/-- Loop body of `_async_get_device_data` (lines 109-135), the
single-flight per-device query, `for attempt in range(3)` unrolled over
the attempt indices; the mutual-exclusion lock serialising callers is
invisible to a single call and not part of the per-call result.  The
`[]` case is Python's implicit `None` return after the loop, unreachable
from the call with indices `[0, 1, 2]`. -/
def getDeviceDataLoop (device_id : String) (fetch : Nat → AttemptOutcome) :
    List Nat → TickResult
  | [] => ⟨.ok .null, [], 0⟩
  | a :: rest =>
      match fetch a with
      | .ok v => ⟨formatDeviceData device_id v, [], 1⟩
      | .err m =>
          ⟨.error ("Error communicating with API for device " ++ device_id
            ++ ": " ++ m), [], 1⟩
      | .timeout =>
          if a == 2 then
            ⟨.error ("Error communicating with API for device " ++ device_id
              ++ ": timed out"), [], 1⟩
          else
            let t := getDeviceDataLoop device_id fetch rest
            ⟨t.result, 1 :: t.sleeps, t.attempts + 1⟩

/-- The single-flight per-device query `_async_get_device_data`
(lines 109-135). -/
def asyncGetDeviceData (device_id : String) (fetch : Nat → AttemptOutcome) :
    TickResult :=
  getDeviceDataLoop device_id fetch [0, 1, 2]

/-- Outcome of one `await self.api.get_state_updates()` call in the push
listener: a returned value (possibly falsy) or a raised exception. -/
inductive WaitOutcome where
  | ret (v : PyValue)
  | exn (msg : String)

/-- Observable trace of the push listener over a finite list of wait
outcomes: sleeps performed (seconds, in order), number of refreshes
requested (`await self.async_refresh()`), whether the loop exited
through the give-up `break`, the value of `retry_count` when the trace
ends, and how many wait outcomes were consumed (a give-up leaves the
rest of the stream untouched). -/
structure ListenerTrace where
  sleeps : List Nat
  refreshes : Nat
  gaveUp : Bool
  finalRetry : Nat
  consumed : Nat

/-- Recursion of `_listen_for_updates` (lines 52-93) over the successive
outcomes of the wait call, carrying `retry_count` (initially 0,
`max_retries = 5`, `retry_delay = 1`).  A returned value resets
`retry_count` to 0 and requests a refresh exactly when the value is
truthy (line 71).  An exception increments `retry_count`; if it reached
5 the loop breaks (give-up), else the listener sleeps
`retry_delay * 2 ^ (retry_count - 1)` seconds and reconnects.  The
`device_lookup` dict rebuilt at each reconnection (lines 61-63) is a
local value never read afterwards and has no effect on this recursion;
it is modelled separately as `deviceLookup`.  The socket close during
error recovery (lines 80-85) acts on the API client, not on the
coordinator state. -/
def listenSteps : List WaitOutcome → Nat → ListenerTrace
  | [], r => ⟨[], 0, false, r, 0⟩
  | .ret v :: rest, _ =>
      let t := listenSteps rest 0
      ⟨t.sleeps, (if isTruthy v then 1 else 0) + t.refreshes, t.gaveUp,
        t.finalRetry, t.consumed + 1⟩
  | .exn _ :: rest, r =>
      if r + 1 ≥ 5 then ⟨[], 0, true, r + 1, 1⟩
      else
        let t := listenSteps rest (r + 1)
        ⟨(1 * 2 ^ (r + 1 - 1)) :: t.sleeps, t.refreshes, t.gaveUp,
          t.finalRetry, t.consumed + 1⟩

/-- Dictionary comprehension of lines 61-63:
`{device.get("me"): device for device in self.data.get("msg", [])}`
when `self.data` is truthy and contains `"msg"`, else the empty dict.
Modelled as the list of (key, device) pairs; Python would deduplicate
equal keys last-wins, which is irrelevant here since the value is never
read and only key membership is consulted by the claims. -/
def deviceLookup (st : CoordState) : List (Option PyValue × PyValue) :=
  match st.data with
  | some d =>
      if isTruthy d && dictContains d "msg" then
        match dictGetD d "msg" (.list []) with
        | .list devs => devs.map (fun dev => (dictGet dev "me", dev))
        | _ => []
      else []
  | Option.none => []

/-- Cleanup after the listener loop exits (lines 95-99):
`_push_task = None`, `devices = {}`, `device_info = {}`,
`_available = True`. -/
def giveUpCleanup (st : CoordState) : CoordState :=
  { st with
    pushTask := Option.none
    devices := some []
    deviceInfo := some []
    available := true }

/-- Whole run of `_listen_for_updates` over a finite outcome stream:
the cleanup block runs exactly when the loop exited through the give-up
`break`; otherwise the listener is still inside the loop and has changed
no coordinator attribute. -/
def listenForUpdates (st : CoordState) (events : List WaitOutcome) :
    CoordState × ListenerTrace :=
  let t := listenSteps events 0
  if t.gaveUp then (giveUpCleanup st, t) else (st, t)

/-- Number of wait outcomes that are truthy returned values; by
lines 66-72 this is exactly the number of refreshes a run of returned
values requests. -/
def countTruthyRets : List WaitOutcome → Nat
  | [] => 0
  | .ret v :: rest => (if isTruthy v then 1 else 0) + countTruthyRets rest
  | .exn _ :: rest => countTruthyRets rest

/-- Accessor `get_device` (lines 168-170): reads `self.devices`, which
`__init__` never assigns; an unassigned attribute raises AttributeError,
modelled as the error case. -/
def get_device (st : CoordState) (device_id : String) : Except String PyValue :=
  match st.devices with
  | Option.none => .error "AttributeError: devices"
  | some d =>
      .ok (((d.find? (fun kv => kv.1 == device_id)).map (fun kv => kv.2)).getD
        (.dict []))

/-- Accessor `get_devices` (lines 172-174). -/
def get_devices (st : CoordState) : Except String PyValue :=
  match st.devices with
  | Option.none => .error "AttributeError: devices"
  | some d => .ok (.dict d)

/-- Accessor `get_device_info` (lines 176-178): reads
`self.device_info`, also never assigned by `__init__`. -/
def get_device_info (st : CoordState) (device_id : String) :
    Except String PyValue :=
  match st.deviceInfo with
  | Option.none => .error "AttributeError: device_info"
  | some d =>
      .ok (((d.find? (fun kv => kv.1 == device_id)).map (fun kv => kv.2)).getD
        (.dict []))

/-- Outcome of the dispatched write
(`self.hass.async_add_executor_job(self.api.set_device_state, ...)`). -/
inductive SetOutcome where
  | ok (resp : PyValue)
  | timeoutErr
  | err (msg : String)

/-- How `async_set_device_state` ends: a plain return (with whether a
refresh was awaited first), a raised `UpdateFailed`, or any other
exception propagated unmodified to the caller. -/
inductive CmdResult where
  | done (refreshed : Bool)
  | updateFailed (m : String)
  | propagated (m : String)

/-- Result of one `async_set_device_state` call: the coordinator state
afterwards, how the call ended, and whether the API write was
dispatched at all. -/
structure CmdEffect where
  st : CoordState
  result : CmdResult
  apiCalled : Bool

/-- Command path `async_set_device_state` (lines 180-197): when
`self.available` is false, return immediately (no API call); otherwise
dispatch the write, and on success await a refresh and return, on
`asyncio.TimeoutError` raise `UpdateFailed`, on any other exception
re-raise it. -/
def asyncSetDeviceState (st : CoordState) (device_id : String)
    (state : PyValue) (time_out : Rat) (outcome : SetOutcome) : CmdEffect :=
  if st.available = false then ⟨st, .done false, false⟩
  else
    match outcome with
    | .ok _ => ⟨st, .done true, true⟩
    | .timeoutErr =>
        ⟨st, .updateFailed "Timeout occurred while setting device state", true⟩
    | .err m => ⟨st, .propagated m, true⟩

/-- Sample full-enumeration value: one device dict keyed by its id, as
`api.get_devices()` would return it. -/
def devSample : PyValue :=
  .dict [("d1", .dict [("me", .str "d1"), ("devtype", .str "SL_SW_NS3")])]

/-- C1.  The claim says every poll tick starts a new push-listener task
when none is active, so a successful tick after a listener give-up
restarts the listener.  In the source the second definition of
`_async_update_data` (lines 137-164) shadows the first (lines 37-50),
and the effective body never reads or assigns `_push_task`: starting
from the post-give-up state (`_push_task = None`), a tick whose fetch
succeeds on the first attempt still leaves `_push_task = None`, even
though the shadowed first body at the same state would have started a
listener task.  The poll tick never starts or restarts the push
listener. -/
theorem c1_effective_tick_never_starts_listener :
    ((updateDataEffective (giveUpCleanup initCoordinator)
        (fun _ => AttemptOutcome.ok devSample)).1.pushTask = Option.none
      ∧ (updateDataEffective (giveUpCleanup initCoordinator)
          (fun _ => AttemptOutcome.ok devSample)).2.result
            = Except.ok (formatDevices devSample))
    ∧ (updateDataV1 (giveUpCleanup initCoordinator)
        (Except.ok devSample)).1.pushTask = some TaskStatus.running :=
  ⟨⟨rfl, rfl⟩, rfl⟩

/-- C2.  The claim says a failing full-poll tick leaves `available()`
false and a succeeding one leaves it true.  The effective
`_async_update_data` (the second definition, lines 137-164, which
shadows the availability-setting first definition) assigns no attribute
of the coordinator: a tick on the fresh coordinator whose every fetch
attempt times out raises `UpdateFailed` yet leaves `available = true`,
and in general every tick returns the coordinator state unchanged, so
`_available` is never set to false anywhere in the running program. -/
theorem c2_failing_tick_leaves_available_true :
    ((updateDataEffective initCoordinator
        (fun _ => AttemptOutcome.timeout)).2.result
      = Except.error "Error communicating with API: timed out")
    ∧ ((updateDataEffective initCoordinator
        (fun _ => AttemptOutcome.timeout)).1.available = true)
    ∧ (∀ st fetch, (updateDataEffective st fetch).1 = st) :=
  ⟨rfl, rfl, fun _ _ => rfl⟩

/-- C4.  A full-poll tick whose fetch times out on every attempt makes
exactly 3 attempts, sleeping 1 second between consecutive attempts, and
then raises `UpdateFailed`; and a tick whose first `k` attempts time out
and whose attempt `k` raises a non-timeout error fails immediately after
that attempt, with no further attempts. -/
theorem c4_poll_retry_bound (fetch : Nat → AttemptOutcome) :
    ((∀ n, fetch n = AttemptOutcome.timeout) →
      updateDataV2 fetch
        = ⟨Except.error "Error communicating with API: timed out", [1, 1], 3⟩)
    ∧ (∀ k, k < 3 → (∀ j, j < k → fetch j = AttemptOutcome.timeout) →
        ∀ m, fetch k = AttemptOutcome.err m →
          updateDataV2 fetch
            = ⟨Except.error ("Error communicating with API: " ++ m),
                List.replicate k 1, k + 1⟩) := by
  constructor
  · intro h
    simp only [updateDataV2, pollTickLoop, h]
    rfl
  · intro k hk hto m hm
    interval_cases k
    · simp only [updateDataV2, pollTickLoop, hm]
      rfl
    · have h0 := hto 0 (by omega)
      simp only [updateDataV2, pollTickLoop, h0, hm]
      rfl
    · have h0 := hto 0 (by omega)
      have h1 := hto 1 (by omega)
      simp only [updateDataV2, pollTickLoop, h0, h1, hm]
      rfl

/-- C4 witness: the all-timeout schedule satisfies the first branch, and
an error on the second attempt after a first-attempt timeout satisfies
the second. -/
theorem c4_poll_retry_bound_witness :
    updateDataV2 (fun _ => AttemptOutcome.timeout)
      = ⟨Except.error "Error communicating with API: timed out", [1, 1], 3⟩
    ∧ updateDataV2
        (fun n => if n = 0 then AttemptOutcome.timeout
          else AttemptOutcome.err "boom")
      = ⟨Except.error "Error communicating with API: boom",
          List.replicate 1 1, 2⟩ :=
  ⟨(c4_poll_retry_bound (fun _ => AttemptOutcome.timeout)).1 (fun _ => rfl),
   (c4_poll_retry_bound
      (fun n => if n = 0 then AttemptOutcome.timeout
        else AttemptOutcome.err "boom")).2
      1 (by omega)
      (by intro j hj; interval_cases j; rfl)
      "boom" rfl⟩

/-- C3 counterexample.  The claim says the sleeps before giving up are
exactly 1, 2, 4, 8, 16 seconds.  On five consecutive wait-call errors
the listener sleeps only after failures 1 through 4 (the 5th failure
makes `retry_count >= max_retries` hold and breaks before any sleep), so
the sleeps are [1, 2, 4, 8] and the claimed schedule [1, 2, 4, 8, 16]
never occurs. -/
theorem c3_backoff_schedule_counterexample :
    (listenSteps (List.replicate 5 (WaitOutcome.exn "boom")) 0).sleeps
        = [1, 2, 4, 8]
    ∧ ([1, 2, 4, 8] : List Nat) ≠ [1, 2, 4, 8, 16]
    ∧ (listenSteps (List.replicate 5 (WaitOutcome.exn "boom")) 0).gaveUp
        = true :=
  ⟨rfl, by decide, rfl⟩

/-- C3 as amended.  A push listener whose wait calls raise five
consecutive errors sleeps exactly 1, 2, 4, 8 seconds
(`retry_delay * 2 ^ (retry_count - 1)` with base 1 second, slept only
after failures 1 through 4), gives up when the retry counter reaches 5,
requests no refresh, and consumes nothing after the 5th failure: any
further outcomes the stream would offer are never awaited. -/
theorem c3_backoff_schedule_amended (msgs : List String)
    (tail : List WaitOutcome) (h : msgs.length = 5) :
    listenSteps (msgs.map WaitOutcome.exn ++ tail) 0
      = ⟨[1, 2, 4, 8], 0, true, 5, 5⟩ := by
  rcases msgs with _ | ⟨a, _ | ⟨b, _ | ⟨c, _ | ⟨d, _ | ⟨e, _ | ⟨f, t⟩⟩⟩⟩⟩⟩
  · simp at h
  · simp at h
  · simp at h
  · simp at h
  · simp at h
  · rfl
  · simp at h

/-- C3 amended witness: five concrete errors followed by two further
outcomes that the given-up listener never consumes. -/
theorem c3_backoff_schedule_amended_witness :
    listenSteps
      (["e1", "e2", "e3", "e4", "e5"].map WaitOutcome.exn
        ++ [WaitOutcome.ret (PyValue.int 1), WaitOutcome.exn "late"]) 0
      = ⟨[1, 2, 4, 8], 0, true, 5, 5⟩ :=
  c3_backoff_schedule_amended ["e1", "e2", "e3", "e4", "e5"]
    [WaitOutcome.ret (PyValue.int 1), WaitOutcome.exn "late"] rfl

/-- C5.  Whenever the listener loop exits through the give-up `break`,
the state after the listener terminates has the device snapshot and the
device-info cache cleared to empty dicts, the availability flag true,
and the task handle cleared; every other attribute (here the stored poll
data) is untouched, and the function then returns, so that listener
makes no further state change. -/
theorem c5_give_up_cleanup (st : CoordState) (events : List WaitOutcome)
    (h : (listenSteps events 0).gaveUp = true) :
    (listenForUpdates st events).1
      = { available := true
          pushTask := Option.none
          devices := some []
          deviceInfo := some []
          data := st.data } := by
  simp only [listenForUpdates, h, if_true, giveUpCleanup]

/-- C5 witness: give-up run on the fresh coordinator after five
wait-call errors. -/
theorem c5_give_up_cleanup_witness :
    (listenForUpdates initCoordinator
        (List.replicate 5 (WaitOutcome.exn "x"))).1
      = { available := true
          pushTask := Option.none
          devices := some []
          deviceInfo := some []
          data := Option.none } :=
  c5_give_up_cleanup initCoordinator (List.replicate 5 (WaitOutcome.exn "x"))
    rfl

/-- C6.  For every device id, state payload, timeout and write outcome,
a call with the availability flag false returns immediately: the
coordinator state is unchanged, the call ends in a plain return with no
refresh, and the API write is never dispatched. -/
theorem c6_command_gated_when_unavailable (st : CoordState)
    (device_id : String) (state : PyValue) (time_out : Rat)
    (outcome : SetOutcome) (h : st.available = false) :
    asyncSetDeviceState st device_id state time_out outcome
      = ⟨st, CmdResult.done false, false⟩ := by
  simp only [asyncSetDeviceState, h, if_true]

/-- C6 witness: an unavailable coordinator with an outcome that would
have raised had the write been dispatched. -/
theorem c6_command_gated_witness :
    asyncSetDeviceState { initCoordinator with available := false } "d1"
        (PyValue.dict [("L1", PyValue.int 1)]) 2 (SetOutcome.err "boom")
      = ⟨{ initCoordinator with available := false },
          CmdResult.done false, false⟩ :=
  c6_command_gated_when_unavailable { initCoordinator with available := false }
    "d1" (PyValue.dict [("L1", PyValue.int 1)]) 2 (SetOutcome.err "boom") rfl

/-- Helper: whenever the per-device formatting step returns a value, it
is a single-key dict holding the list under `"msg"`. -/
theorem formatDeviceData_ok_shape (device_id : String) (v : PyValue)
    (r : PyValue) (h : formatDeviceData device_id v = Except.ok r) :
    ∃ xs, r = PyValue.dict [("msg", PyValue.list xs)] := by
  unfold formatDeviceData at h
  split at h
  · split at h
    · split at h
      · exact ⟨_, (Except.ok.inj h).symm⟩
      · cases h
    · exact ⟨[], (Except.ok.inj h).symm⟩
  · exact ⟨[], (Except.ok.inj h).symm⟩

/-- C7.  Every value the single-flight per-device query returns (rather
than raises) is of the normalized single-key shape with a list of
devices under the key, and a fetched response that is malformed in the
claimed sense (not a dict, or a dict missing the expected `"msg"` key)
yields the empty result of that shape instead of an error. -/
theorem c7_single_flight_normalized (device_id : String)
    (fetch : Nat → AttemptOutcome) :
    (∀ r, (asyncGetDeviceData device_id fetch).result = Except.ok r →
      ∃ xs, r = PyValue.dict [("msg", PyValue.list xs)])
    ∧ (∀ v, fetch 0 = AttemptOutcome.ok v →
        ((∀ items, v ≠ PyValue.dict items) ∨ dictGet v "msg" = Option.none) →
        (asyncGetDeviceData device_id fetch).result
          = Except.ok (PyValue.dict [("msg", PyValue.list [])])) := by
  constructor
  · intro r hr
    cases h0 : fetch 0 <;> cases h1 : fetch 1 <;> cases h2 : fetch 2 <;>
      simp only [asyncGetDeviceData, getDeviceDataLoop, h0, h1, h2] at hr <;>
      first
        | exact formatDeviceData_ok_shape device_id _ r hr
        | simp at hr
  · intro v h0 hmal
    have hv : formatDeviceData device_id v
        = Except.ok (PyValue.dict [("msg", PyValue.list [])]) := by
      rcases hmal with hnd | hnone
      · cases v
        case dict items => exact absurd rfl (hnd items)
        all_goals rfl
      · cases v <;> simp [formatDeviceData, hnone]
    simp [asyncGetDeviceData, getDeviceDataLoop, h0, hv]

/-- C7 witness: a first-attempt fetch returning a non-dict value
degrades to the empty normalized result. -/
theorem c7_single_flight_normalized_witness :
    (asyncGetDeviceData "d1" (fun _ => AttemptOutcome.ok (PyValue.int 3))).result
      = Except.ok (PyValue.dict [("msg", PyValue.list [])]) :=
  (c7_single_flight_normalized "d1"
      (fun _ => AttemptOutcome.ok (PyValue.int 3))).2
    (PyValue.int 3) rfl (Or.inl (fun items h => nomatch h))

/-- C8.  Processing one returned push event whose device id is unknown
to the snapshot store (its id is not a key of the lookup built from
`self.data`) leaves every coordinator attribute unchanged, raises no
error, causes no backoff sleep and no give-up; the only effect is the
refresh request when the event is truthy, and the event's content is
never written into the store. -/
theorem c8_unknown_delta_dropped (st : CoordState) (v : PyValue)
    (h : ∀ entry ∈ deviceLookup st, entry.1 ≠ dictGet v "me") :
    (listenForUpdates st [WaitOutcome.ret v]).1 = st
    ∧ (listenForUpdates st [WaitOutcome.ret v]).2.gaveUp = false
    ∧ (listenForUpdates st [WaitOutcome.ret v]).2.sleeps = []
    ∧ (listenForUpdates st [WaitOutcome.ret v]).2.refreshes
        = (if isTruthy v then 1 else 0) :=
  ⟨rfl, rfl, rfl, rfl⟩

/-- Snapshot store holding one device with id `"d1"`, as a successful
poll leaves it in `self.data`. -/
def storeSample : CoordState :=
  { initCoordinator with
    data := some (.dict [("msg",
      .list [.dict [("me", .str "d1"), ("devtype", .str "SL_SW_NS3")]])]) }

/-- Push update event naming a device id absent from `storeSample`. -/
def pushEventSample : PyValue :=
  .dict [("me", .str "other"), ("idx", .str "L1"), ("val", .int 1)]

/-- C8 witness: a store knowing only device `"d1"` receives a truthy
event for device `"other"`; the state is unchanged and one refresh is
requested. -/
theorem c8_unknown_delta_dropped_witness :
    (listenForUpdates storeSample [WaitOutcome.ret pushEventSample]).1
        = storeSample
    ∧ (listenForUpdates storeSample [WaitOutcome.ret pushEventSample]).2.gaveUp
        = false
    ∧ (listenForUpdates storeSample [WaitOutcome.ret pushEventSample]).2.sleeps
        = []
    ∧ (listenForUpdates storeSample
        [WaitOutcome.ret pushEventSample]).2.refreshes
        = (if isTruthy pushEventSample then 1 else 0) :=
  c8_unknown_delta_dropped storeSample pushEventSample (by
    intro entry he
    have hl : deviceLookup storeSample
        = [(some (PyValue.str "d1"),
            PyValue.dict [("me", PyValue.str "d1"),
              ("devtype", PyValue.str "SL_SW_NS3")])] := rfl
    rw [hl] at he
    rcases List.mem_singleton.mp he with rfl
    intro hcon
    have h1 := Option.some.inj hcon
    have h2 := PyValue.str.inj h1
    exact absurd h2 (by decide))

/-- C9.  The accessors read attributes the constructor never assigns:
on a freshly constructed coordinator all three raise AttributeError
instead of returning an empty result; after a listener give-up they
return the empty dict for every device id; and storing a successful
poll's return value (which goes to `self.data`) never changes the
attributes the accessors read, so they never expose the polled
snapshot. -/
theorem c9_accessors_never_see_poll :
    (∀ device_id,
        get_device initCoordinator device_id
          = Except.error "AttributeError: devices"
        ∧ get_device_info initCoordinator device_id
          = Except.error "AttributeError: device_info"
        ∧ get_devices initCoordinator
          = Except.error "AttributeError: devices")
    ∧ (∀ st events device_id, (listenSteps events 0).gaveUp = true →
        get_device (listenForUpdates st events).1 device_id
          = Except.ok (PyValue.dict [])
        ∧ get_device_info (listenForUpdates st events).1 device_id
          = Except.ok (PyValue.dict []))
    ∧ (∀ st t, (applyFrameworkStore st t).devices = st.devices
        ∧ (applyFrameworkStore st t).deviceInfo = st.deviceInfo) := by
  refine ⟨fun _ => ⟨rfl, rfl, rfl⟩, ?_, ?_⟩
  · intro st events device_id h
    constructor <;>
      simp [listenForUpdates, h, giveUpCleanup, get_device, get_device_info]
  · intro st t
    unfold applyFrameworkStore
    split <;> exact ⟨rfl, rfl⟩

/-- C9 witness: after five wait-call errors on the fresh coordinator the
listener has given up, and the accessor returns the empty dict for a
device the polls would have known. -/
theorem c9_accessors_never_see_poll_witness :
    get_device
        (listenForUpdates initCoordinator
          (List.replicate 5 (WaitOutcome.exn "x"))).1 "d1"
      = Except.ok (PyValue.dict []) :=
  (c9_accessors_never_see_poll.2.1 initCoordinator
    (List.replicate 5 (WaitOutcome.exn "x")) "d1" rfl).1

/-- C10.  Over any finite run of wait calls that all return (none
raises), from any starting retry count, the listener performs no
backoff sleep, never gives up, consumes every outcome, requests exactly
one refresh per truthy returned value (a falsy return, such as `None`,
triggers none), and ends with the retry counter reset to zero whenever
at least one return occurred. -/
theorem c10_returns_reset_retry (events : List WaitOutcome) (r : Nat)
    (h : ∀ e ∈ events, ∃ v, e = WaitOutcome.ret v) :
    listenSteps events r
      = ⟨[], countTruthyRets events, false,
          if events.isEmpty then r else 0, events.length⟩ := by
  revert h
  induction events generalizing r with
  | nil => intro h; rfl
  | cons e rest ih =>
    intro h
    obtain ⟨v, rfl⟩ := h e (List.mem_cons_self e rest)
    have hr := ih 0 (fun x hx => h x (List.mem_cons_of_mem _ hx))
    simp [listenSteps, hr, countTruthyRets]

/-- C10 witness: a falsy return (`None`) followed by a truthy one, from
retry count 3: no sleeps, no give-up, one refresh, retry counter 0. -/
theorem c10_returns_reset_retry_witness :
    listenSteps
        [WaitOutcome.ret PyValue.null, WaitOutcome.ret (PyValue.int 1)] 3
      = ⟨[], 1, false, 0, 2⟩ :=
  c10_returns_reset_retry
    [WaitOutcome.ret PyValue.null, WaitOutcome.ret (PyValue.int 1)] 3 (by
      intro e he
      rcases List.mem_cons.mp he with rfl | he2
      · exact ⟨PyValue.null, rfl⟩
      · rcases List.mem_cons.mp he2 with rfl | he3
        · exact ⟨PyValue.int 1, rfl⟩
        · cases he3)
